import Mathlib

set_option maxHeartbeats 1000000
set_option maxRecDepth 8192

/-!
Shallow embedding of `src/ai_pipeline.py` (`BasedGenerateTaskPipeline`).

Python strings are Lean `String`; Python `None`-able values are `Option`.
An exception's optional `description` attribute is `Option (Option String)`:
`none` means the attribute is absent, `some none` means it is present and
holds `None`, `some (some s)` means it holds the string `s`.
Database effects are made explicit: `_handle_error` takes the list of
persisted message records and returns the updated list together with the
list of persistence operations it issued.  A Python exception escaping a
function is an `Except.error`.
-/

namespace AIPipeline

/-- Python exception values as dispatched on by `ai_pipeline.py`.  Each
constructor is one of the concrete exception classes the file can receive or
build; the payloads are the optional `description` attribute and the
`str(e)` rendering. -/
inductive Exc where
  | invokeAuthorizationError (descr : Option (Option String)) (strForm : String)
  | invokeError (descr : Option (Option String)) (strForm : String)
  | quotaExceededError (descr : Option (Option String)) (strForm : String)
  | valueError (descr : Option (Option String)) (strForm : String)
  | exception (descr : Option (Option String)) (strForm : String)
deriving DecidableEq, Repr

/-- `isinstance(e, InvokeAuthorizationError)` for the external exception
classes imported by `ai_pipeline.py`. -/
def isInstInvokeAuthorizationError : Exc → Bool
  | .invokeAuthorizationError _ _ => true
  | _ => false

/-- Modelled from the spec: `isinstance(e, InvokeError)`.  The external
`InvokeAuthorizationError` class is a subclass of `InvokeError` in the
model-runtime errors module, so it also satisfies this check. -/
def isInstInvokeError : Exc → Bool
  | .invokeAuthorizationError _ _ => true
  | .invokeError _ _ => true
  | _ => false

/-- Modelled from the spec: `isinstance(e, ValueError)`.  The external
`QuotaExceededError` class is a `ValueError` subclass, which is what lets a
quota-exhaustion failure pass through classification unchanged and then
receive its special user message (spec sections 4.1 and 7). -/
def isInstValueError : Exc → Bool
  | .quotaExceededError _ _ => true
  | .valueError _ _ => true
  | _ => false

/-- `isinstance(e, QuotaExceededError)`. -/
def isInstQuotaExceededError : Exc → Bool
  | .quotaExceededError _ _ => true
  | _ => false

/-- `getattr(e, 'description', ...)`: `none` when the attribute is absent,
`some v` when present with value `v` (itself possibly `None`). -/
def descriptionAttr : Exc → Option (Option String)
  | .invokeAuthorizationError d _ => d
  | .invokeError d _ => d
  | .quotaExceededError d _ => d
  | .valueError d _ => d
  | .exception d _ => d

/-- `str(e)`. -/
def strOf : Exc → String
  | .invokeAuthorizationError _ s => s
  | .invokeError _ s => s
  | .quotaExceededError _ s => s
  | .valueError _ s => s
  | .exception _ s => s

/-- Modelled from the spec: the external constructor
`InvokeAuthorizationError(msg)`.  Authorization failures are rewritten to a
fixed user-facing message, so the constructed failure's description and
string form are both that message. -/
def mkInvokeAuthorizationError (msg : String) : Exc :=
  .invokeAuthorizationError (some (some msg)) msg

/-- Python `Exception(msg)`: a plain exception with no `description`
attribute whose `str` is the constructor argument. -/
def mkException (msg : String) : Exc := .exception none msg

/-- The fixed quota-exhaustion user message of `_error_to_desc`. -/
def quotaExhaustedMessage : String :=
  "Your quota for Dify Hosted Model Provider has been exhausted. Please go to Settings -> Model Provider to complete your own provider credentials."

/-- The fixed fallback support message of `_error_to_desc`. -/
def internalServerErrorMessage : String :=
  "Internal Server Error, please contact support."

/-- The fixed user-facing message for authorization failures in
`_handle_error`. -/
def incorrectApiKeyMessage : String := "Incorrect API key provided"

/-- `BasedGenerateTaskPipeline._error_to_desc` (`src/ai_pipeline.py` lines
75-90).  `message = getattr(e, 'description', str(e))` yields `None` when
the attribute is present holding `None`; `if not message` catches both
`None` and the empty string. -/
def _error_to_desc (e : Exc) : String :=
  if isInstQuotaExceededError e then
    quotaExhaustedMessage
  else
    let message : Option String :=
      match descriptionAttr e with
      | some d => d
      | none => some (strOf e)
    match message with
    | none => internalServerErrorMessage
    | some s => if s = "" then internalServerErrorMessage else s

/-- A persisted `Message` record (the fields `ai_pipeline.py` touches). -/
structure Message where
  id : Nat
  status : String
  error : Option String
deriving DecidableEq, Repr

/-- `QueueErrorEvent`: wraps the underlying failure. -/
structure QueueErrorEvent where
  error : Exc
deriving DecidableEq, Repr

/-- A persistence operation issued through `db.session`. -/
inductive DbOp where
  | query (id : Nat)
  | commit
deriving DecidableEq, Repr

/-- `db.session.query(Message).filter(Message.id == i).first()`. -/
def queryFirst (dbase : List Message) (i : Nat) : Option Message :=
  dbase.find? (fun m => m.id == i)

/-- Effect of `message.status = 'error'; message.error = desc` on the record
returned by `first()` (the first record with the given id), as seen in the
database after `db.session.commit()`. -/
def setMessageError : List Message → Nat → String → List Message
  | [], _, _ => []
  | m :: ms, i, desc =>
    if m.id == i then { m with status := "error", error := some desc } :: ms
    else m :: setMessageError ms i desc

/-- Result of `_handle_error`: the returned (or raised) exception, the
database contents afterwards, and the persistence operations issued. -/
structure HandleErrorOut where
  result : Except String Exc
  db : List Message
  ops : List DbOp
deriving Repr

/-- The classification chain of `_handle_error` (`src/ai_pipeline.py` lines
57-62): rewrite authorization failures to the fixed message, pass
`InvokeError` and `ValueError` through, wrap anything else into a plain
`Exception` carrying the description when one is present and not `None`,
otherwise the string form. -/
def classifyErr (e : Exc) : Exc :=
  if isInstInvokeAuthorizationError e then
    mkInvokeAuthorizationError incorrectApiKeyMessage
  else if isInstInvokeError e || isInstValueError e then
    e
  else
    mkException (match descriptionAttr e with
      | some (some d) => d
      | _ => strOf e)

/-- `BasedGenerateTaskPipeline._handle_error` (`src/ai_pipeline.py` lines
47-73).  Classifies `event.error`, then, when a message reference is given,
re-fetches the record by id and marks it errored.  `first()` returns `None`
when no record matches, and the unguarded `message.status = 'error'` then
raises `AttributeError`; this is the only raising path. -/
def _handle_error (event : QueueErrorEvent) (message : Option Message)
    (db : List Message) : HandleErrorOut :=
  let e := event.error
  let err : Exc := classifyErr e
  match message with
  | none => ⟨Except.ok err, db, []⟩
  | some m =>
    match queryFirst db m.id with
    | none => ⟨Except.error "AttributeError", db, [DbOp.query m.id]⟩
    | some _ =>
      let desc := _error_to_desc err
      ⟨Except.ok err, setMessageError db m.id desc,
        [DbOp.query m.id, DbOp.commit]⟩

/-- `app_config.sensitive_word_avoidance` (external entity): a type and an
opaque configuration payload. -/
structure SensitiveWordAvoidanceConfig where
  type : String
  config : String
deriving DecidableEq, Repr

/-- External `ModerationRule` entity. -/
structure ModerationRule where
  type : String
  config : String
deriving DecidableEq, Repr

/-- External `AppConfig` entity (the fields `ai_pipeline.py` reads). -/
structure AppConfig where
  tenant_id : String
  app_id : String
  sensitive_word_avoidance : Option SensitiveWordAvoidanceConfig
deriving DecidableEq, Repr

/-- External `AppGenerateEntity` (the fields `ai_pipeline.py` reads). -/
structure AppGenerateEntity where
  task_id : String
  app_config : AppConfig
deriving DecidableEq, Repr

/-- Modelled from the spec: the external `OutputModeration` handler,
constructed with tenant, app, rule and the queue manager (an opaque token
here); `moderate` is its moderate-completion(text, public_event) operation,
whose behavior belongs to the external moderation subsystem. -/
structure OutputModeration where
  tenant_id : String
  app_id : String
  rule : ModerationRule
  queue_manager : Nat
  moderate : String → Bool → String

/-- A call made on the moderation handler. -/
inductive ModerationCall where
  | stopThread
  | moderationCompletion (completion : String) (public_event : Bool)
deriving DecidableEq, Repr

/-- The `BasedGenerateTaskPipeline` state that `ai_pipeline.py` stores on
`self` and that the embedded operations read or write (`_start_at` and
`_user` are never read by any modelled operation and are omitted). -/
structure BasedGenerateTaskPipeline where
  application_generate_entity : AppGenerateEntity
  queue_manager : Nat
  output_moderation_handler : Option OutputModeration
  stream : Bool

/-- `BasedGenerateTaskPipeline._init_output_moderation` (`src/ai_pipeline.py`
lines 110-127): builds the handler only when sensitive-word avoidance is
configured, else falls through to `None`.  The `moderate` argument supplies
the external subsystem's moderation behavior. -/
def _init_output_moderation (entity : AppGenerateEntity) (queue_manager : Nat)
    (moderate : String → Bool → String) : Option OutputModeration :=
  let app_config := entity.app_config
  match app_config.sensitive_word_avoidance with
  | some s =>
    some { tenant_id := app_config.tenant_id
           app_id := app_config.app_id
           rule := { type := s.type, config := s.config }
           queue_manager := queue_manager
           moderate := moderate }
  | none => none

/-- `BasedGenerateTaskPipeline.__init__` (`src/ai_pipeline.py` lines 27-45):
stores the entity, queue manager and stream flag and wires the optional
moderation handler. -/
def initPipeline (entity : AppGenerateEntity) (queue_manager : Nat)
    (stream : Bool) (moderate : String → Bool → String) :
    BasedGenerateTaskPipeline :=
  { application_generate_entity := entity
    queue_manager := queue_manager
    output_moderation_handler := _init_output_moderation entity queue_manager moderate
    stream := stream }

/-- Result of `_handle_output_moderation_when_task_finished`: the returned
value, the pipeline state afterwards, and the calls made on the handler. -/
structure ModerationFinishOut where
  result : Option String
  pipeline : BasedGenerateTaskPipeline
  calls : List ModerationCall

/-- `BasedGenerateTaskPipeline._handle_output_moderation_when_task_finished`
(`src/ai_pipeline.py` lines 129-147): when a handler is present, stop its
thread, moderate the completion with `public_event=False`, drop the handler
and return the moderated text; otherwise return `None`. -/
def _handle_output_moderation_when_task_finished
    (p : BasedGenerateTaskPipeline) (completion : String) :
    ModerationFinishOut :=
  match p.output_moderation_handler with
  | some handler =>
    let moderated := handler.moderate completion false
    { result := some moderated
      pipeline := { p with output_moderation_handler := none }
      calls := [ModerationCall.stopThread,
                ModerationCall.moderationCompletion completion false] }
  | none => { result := none, pipeline := p, calls := [] }

/-- External `ErrorStreamResponse` entity. -/
structure ErrorStreamResponse where
  task_id : String
  err : Exc
deriving DecidableEq, Repr

/-- External `PingStreamResponse` entity. -/
structure PingStreamResponse where
  task_id : String
deriving DecidableEq, Repr

/-- `BasedGenerateTaskPipeline._error_to_stream_response`
(`src/ai_pipeline.py` lines 92-101). -/
def _error_to_stream_response (p : BasedGenerateTaskPipeline) (e : Exc) :
    ErrorStreamResponse :=
  { task_id := p.application_generate_entity.task_id, err := e }

/-- `BasedGenerateTaskPipeline._ping_stream_response` (`src/ai_pipeline.py`
lines 103-108). -/
def _ping_stream_response (p : BasedGenerateTaskPipeline) :
    PingStreamResponse :=
  { task_id := p.application_generate_entity.task_id }

/-- Substring containment on character lists: some position of the second
list starts an occurrence of the first. -/
def containsSub (pat : List Char) : List Char → Bool
  | [] => pat.isEmpty
  | c :: s => pat.isPrefixOf (c :: s) || containsSub pat s

/-- Python substring test `pat in s`. -/
def strContains (s pat : String) : Bool := containsSub pat.data s.data

/-- The fixed anomaly note of `_detect_anomalies`. -/
def anomalyNote : String := "Suspicious content detected in the output."

/-- `BasedGenerateTaskPipeline._detect_anomalies` (`src/ai_pipeline.py`
lines 149-166): substring check for "suspicious", returning the fixed note
when it occurs. -/
def _detect_anomalies (output : String) : Option String :=
  if strContains output "suspicious" then some anomalyNote else none

/-- `BasedGenerateTaskPipeline._enrich_response` (`src/ai_pipeline.py`
lines 168-178): appends a note line when an anomaly is detected. -/
def _enrich_response (output : String) : String :=
  match _detect_anomalies output with
  | some d => output ++ "\nNote: " ++ d
  | none => output

/-- Number of start positions at which the (nonempty) pattern occurs as a
contiguous substring; the formal reading of "contains ... exactly once". -/
def countOccs (pat : List Char) : List Char → Nat
  | [] => 0
  | c :: s => (if pat.isPrefixOf (c :: s) then 1 else 0) + countOccs pat s

/-- Sample record used to instantiate the persistence theorems. -/
def sampleMessage : Message := { id := 1, status := "normal", error := none }

/-- Sample quota-exhaustion event with an unrelated original text. -/
def sampleQuotaEvent : QueueErrorEvent :=
  { error := Exc.quotaExceededError none "original quota text" }

/-- Sample authorization-failure event with an unrelated original text. -/
def sampleAuthEvent : QueueErrorEvent :=
  { error := Exc.invokeAuthorizationError (some (some "original auth text")) "original auth text" }

/-- Sample validation-failure event. -/
def sampleValueEvent : QueueErrorEvent :=
  { error := Exc.valueError none "boom" }

/-- Sample moderation behavior: wraps the completion in brackets. -/
def sampleModerate : String → Bool → String := fun s _ => "[" ++ s ++ "]"

/-- Sample app configuration with sensitive-word avoidance disabled. -/
def sampleEntityDisabled : AppGenerateEntity :=
  { task_id := "task-1"
    app_config := { tenant_id := "t1", app_id := "a1", sensitive_word_avoidance := none } }

/-- Sample app configuration with sensitive-word avoidance enabled. -/
def sampleEntityEnabled : AppGenerateEntity :=
  { task_id := "task-2"
    app_config := { tenant_id := "t1", app_id := "a1",
                    sensitive_word_avoidance := some { type := "keywords", config := "cfg" } } }

/-- Pipeline built from the enabled sample configuration. -/
def samplePipelineEnabled : BasedGenerateTaskPipeline :=
  initPipeline sampleEntityEnabled 7 true sampleModerate

/-- The handler the enabled sample pipeline carries. -/
def sampleHandler : OutputModeration :=
  { tenant_id := "t1", app_id := "a1"
    rule := { type := "keywords", config := "cfg" }
    queue_manager := 7, moderate := sampleModerate }

/-! Shared lemmas -/

theorem data_append (a b : String) : (a ++ b).data = a.data ++ b.data := by
  cases a; cases b; rfl

theorem length_pos_of_ne_empty (s : String) (h : ¬ s = "") : 0 < s.length := by
  cases s with
  | mk l =>
    cases l with
    | nil => exact absurd rfl h
    | cons c cs => simp [String.length]

theorem error_to_desc_length_pos (e : Exc) : 0 < (_error_to_desc e).length := by
  simp only [_error_to_desc]
  split
  · decide
  · cases hd : descriptionAttr e with
    | none =>
      by_cases hs : strOf e = ""
      · simp [hs]; decide
      · simp only [if_neg hs]
        exact length_pos_of_ne_empty _ hs
    | some d =>
      cases d with
      | none =>
        show 0 < internalServerErrorMessage.length
        decide
      | some s =>
        by_cases hs : s = ""
        · simp [hs]; decide
        · simp only [if_neg hs]
          exact length_pos_of_ne_empty _ hs

theorem quota_isInst_facts (e : Exc) (hq : isInstQuotaExceededError e = true) :
    isInstInvokeAuthorizationError e = false ∧ isInstInvokeError e = false ∧
      isInstValueError e = true := by
  cases e <;> simp_all [isInstQuotaExceededError, isInstInvokeAuthorizationError,
    isInstInvokeError, isInstValueError]

theorem auth_false_of_invoke_false (e : Exc) (h : isInstInvokeError e = false) :
    isInstInvokeAuthorizationError e = false := by
  cases e <;> simp_all [isInstInvokeError, isInstInvokeAuthorizationError]

theorem handleError_ok (event : QueueErrorEvent) (message : Option Message)
    (db : List Message)
    (hok : ∀ m, message = some m → (queryFirst db m.id).isSome = true) :
    (_handle_error event message db).result = Except.ok (classifyErr event.error) := by
  cases message with
  | none => rfl
  | some m =>
    obtain ⟨r, hr⟩ := Option.isSome_iff_exists.mp (hok m rfl)
    simp only [_handle_error, hr]

theorem queryFirst_setMessageError (dbase : List Message) (i : Nat) (desc : String)
    (h : (queryFirst dbase i).isSome = true) :
    ∃ r, queryFirst (setMessageError dbase i desc) i = some r ∧
      r.status = "error" ∧ r.error = some desc := by
  induction dbase with
  | nil => simp [queryFirst] at h
  | cons m ms ih =>
    by_cases hm : (m.id == i) = true
    · have hset : setMessageError (m :: ms) i desc
          = { m with status := "error", error := some desc } :: ms := by
        simp [setMessageError, hm]
      refine ⟨{ m with status := "error", error := some desc }, ?_, rfl, rfl⟩
      rw [hset]
      simp [queryFirst, List.find?, hm]
    · have hmf : (m.id == i) = false := by simpa using hm
      have h2 : (queryFirst ms i).isSome = true := by
        simpa [queryFirst, List.find?, hmf] using h
      obtain ⟨r, hr, hs, he⟩ := ih h2
      refine ⟨r, ?_, hs, he⟩
      have hset : setMessageError (m :: ms) i desc = m :: setMessageError ms i desc := by
        simp [setMessageError, hmf]
      rw [hset]
      simpa [queryFirst, List.find?, hmf] using hr

theorem handle_error_persists (event : QueueErrorEvent) (m : Message)
    (db : List Message) (hfound : (queryFirst db m.id).isSome = true) :
    ∃ r, queryFirst (_handle_error event (some m) db).db m.id = some r ∧
      r.status = "error" ∧
      r.error = some (_error_to_desc (classifyErr event.error)) ∧
      (_handle_error event (some m) db).ops = [DbOp.query m.id, DbOp.commit] := by
  obtain ⟨r0, hr0⟩ := Option.isSome_iff_exists.mp hfound
  have hdb : (_handle_error event (some m) db).db
      = setMessageError db m.id (_error_to_desc (classifyErr event.error)) := by
    simp only [_handle_error, hr0]
  have hops : (_handle_error event (some m) db).ops = [DbOp.query m.id, DbOp.commit] := by
    simp only [_handle_error, hr0]
  obtain ⟨r, hr, hs, he⟩ :=
    queryFirst_setMessageError db m.id (_error_to_desc (classifyErr event.error)) hfound
  exact ⟨r, by rw [hdb]; exact hr, hs, he, hops⟩

theorem isPrefixOf_append_cons_of_not_mem (pat : List Char) (c : Char)
    (hc : c ∉ pat) :
    ∀ (xs ys : List Char), pat.isPrefixOf (xs ++ c :: ys) = pat.isPrefixOf xs := by
  induction pat with
  | nil => intro xs ys; simp [List.isPrefixOf]
  | cons p ps ih =>
    intro xs ys
    simp only [List.mem_cons, not_or] at hc
    cases xs with
    | nil =>
      have hpc : (p == c) = false := beq_false_of_ne (Ne.symm hc.1)
      simp [List.isPrefixOf, hpc]
    | cons x xs =>
      have h1 := ih hc.2 xs ys
      simp only [List.cons_append, List.isPrefixOf, List.append_eq, h1]

theorem countOccs_append_cons (pat : List Char) (c : Char)
    (hpat : pat ≠ []) (hc : c ∉ pat) :
    ∀ (xs ys : List Char),
      countOccs pat (xs ++ c :: ys) = countOccs pat xs + countOccs pat ys := by
  intro xs ys
  induction xs with
  | nil =>
    simp only [List.nil_append, countOccs]
    have h0 : pat.isPrefixOf (c :: ys) = pat.isPrefixOf ([] : List Char) := by
      have := isPrefixOf_append_cons_of_not_mem pat c hc [] ys
      simpa using this
    rw [h0]
    cases pat with
    | nil => exact absurd rfl hpat
    | cons p ps => simp [List.isPrefixOf]
  | cons x xs ih =>
    have h1 : pat.isPrefixOf (x :: (xs ++ c :: ys)) = pat.isPrefixOf (x :: xs) := by
      have := isPrefixOf_append_cons_of_not_mem pat c hc (x :: xs) ys
      simpa using this
    simp only [List.cons_append, countOccs, List.append_eq, ih, h1]
    rw [Nat.add_assoc]

/-! Claims -/

/-- C1: for every quota-exhaustion failure handled by `_handle_error` with a
message reference (whose record is present, as "the corresponding persisted
record" presupposes), the description persisted on the message record equals
the fixed quota message — regardless of the original exception's description
and string form, so never the original exception text. -/
theorem quota_error_persists_fixed_message
    (event : QueueErrorEvent) (m : Message) (db : List Message)
    (hq : isInstQuotaExceededError event.error = true)
    (hfound : (queryFirst db m.id).isSome = true) :
    ∃ r, queryFirst (_handle_error event (some m) db).db m.id = some r ∧
      r.status = "error" ∧ r.error = some quotaExhaustedMessage := by
  obtain ⟨hauth, hinv, hval⟩ := quota_isInst_facts event.error hq
  have hclass : classifyErr event.error = event.error := by
    simp [classifyErr, hauth, hinv, hval]
  have hdesc : _error_to_desc (classifyErr event.error) = quotaExhaustedMessage := by
    rw [hclass]
    simp [_error_to_desc, hq]
  obtain ⟨r, hr, hs, he, _⟩ := handle_error_persists event m db hfound
  exact ⟨r, hr, hs, by rw [he, hdesc]⟩

/-- Witness for C1 at a concrete quota event and a one-record database. -/
theorem quota_error_persists_fixed_message_witness :
    isInstQuotaExceededError sampleQuotaEvent.error = true ∧
    (queryFirst [sampleMessage] sampleMessage.id).isSome = true ∧
    ∃ r, queryFirst
        (_handle_error sampleQuotaEvent (some sampleMessage) [sampleMessage]).db
        sampleMessage.id = some r ∧
      r.status = "error" ∧ r.error = some quotaExhaustedMessage :=
  ⟨rfl, rfl,
    quota_error_persists_fixed_message sampleQuotaEvent sampleMessage [sampleMessage] rfl rfl⟩

/-- C2 counterexample: with a message reference whose record is absent from
the database, `_handle_error` dereferences the `None` returned by `first()`
and raises `AttributeError` instead of returning a value, so "never raises
past its boundary" fails as universally stated. -/
theorem handle_error_raises_on_missing_record :
    (_handle_error sampleValueEvent (some sampleMessage) []).result
      = Except.error "AttributeError" := rfl

/-- C2 (amended): for every `QueueErrorEvent` and every optional message
reference, provided any supplied reference has a record present in the
database, `_handle_error` returns the classified failure as a value and
never raises past its boundary. -/
theorem handle_error_total_when_record_present
    (event : QueueErrorEvent) (message : Option Message) (db : List Message)
    (hok : ∀ m, message = some m → (queryFirst db m.id).isSome = true) :
    (_handle_error event message db).result = Except.ok (classifyErr event.error) :=
  handleError_ok event message db hok

/-- Witness for the amended C2 with no message reference. -/
theorem handle_error_total_when_record_present_witness :
    (_handle_error sampleValueEvent none []).result
      = Except.ok (classifyErr sampleValueEvent.error) :=
  handle_error_total_when_record_present sampleValueEvent none []
    (fun _ h => nomatch h)

/-- C3 counterexample: an input that contains "suspicious" and already
contains the fixed anomaly note yields an enriched output containing the
note twice, not exactly once. -/
theorem enrich_note_twice_on_note_bearing_input :
    strContains "suspicious Suspicious content detected in the output."
      "suspicious" = true ∧
    countOccs anomalyNote.data
      (_enrich_response
        "suspicious Suspicious content detected in the output.").data = 2 := by
  constructor
  · decide
  · decide

/-- C3 (amended): for every input string containing "suspicious" and not
already containing the fixed anomaly note, `_enrich_response` yields an
output that contains the fixed anomaly note exactly once. -/
theorem enrich_note_once_when_fresh (output : String)
    (hsusp : strContains output "suspicious" = true)
    (hfresh : countOccs anomalyNote.data output.data = 0) :
    countOccs anomalyNote.data (_enrich_response output).data = 1 := by
  have hdet : _detect_anomalies output = some anomalyNote := by
    simp [_detect_anomalies, hsusp]
  have henr : _enrich_response output = output ++ "\nNote: " ++ anomalyNote := by
    simp [_enrich_response, hdet]
  rw [henr, data_append, data_append]
  have hsplit : output.data ++ "\nNote: ".data ++ anomalyNote.data
      = output.data ++
          (Char.ofNat 10 :: ("Note: ".data ++ anomalyNote.data)) := by
    rw [List.append_assoc]
    rfl
  rw [hsplit,
    countOccs_append_cons anomalyNote.data (Char.ofNat 10) (by decide) (by decide),
    hfresh]
  decide

/-- Witness for the amended C3 on a concrete fresh input. -/
theorem enrich_note_once_when_fresh_witness :
    strContains "very suspicious output" "suspicious" = true ∧
    countOccs anomalyNote.data "very suspicious output".data = 0 ∧
    countOccs anomalyNote.data (_enrich_response "very suspicious output").data = 1 :=
  ⟨by decide, by decide,
    enrich_note_once_when_fresh "very suspicious output" (by decide) (by decide)⟩

/-- C4: with sensitive-word avoidance disabled the pipeline carries no
moderation handler and finishing a task returns the no-moderation signal
with no call on any handler; with a handler present, the first call stops
the handler's background work, returns the moderated completion and
discards the handler, so a second call returns the no-moderation signal and
makes no further calls (one-shot, at most once per task). -/
theorem moderation_gate_one_shot :
    (∀ (entity : AppGenerateEntity) (qm : Nat) (stream : Bool)
       (moderate : String → Bool → String),
      entity.app_config.sensitive_word_avoidance = none →
      (initPipeline entity qm stream moderate).output_moderation_handler = none) ∧
    (∀ (p : BasedGenerateTaskPipeline) (completion : String),
      p.output_moderation_handler = none →
      _handle_output_moderation_when_task_finished p completion
        = { result := none, pipeline := p, calls := [] }) ∧
    (∀ (p : BasedGenerateTaskPipeline) (h : OutputModeration)
       (completion completion2 : String),
      p.output_moderation_handler = some h →
      (_handle_output_moderation_when_task_finished p completion).result
          = some (h.moderate completion false) ∧
      (_handle_output_moderation_when_task_finished p completion).calls
          = [ModerationCall.stopThread,
             ModerationCall.moderationCompletion completion false] ∧
      (_handle_output_moderation_when_task_finished p completion).pipeline.output_moderation_handler
          = none ∧
      (_handle_output_moderation_when_task_finished
          (_handle_output_moderation_when_task_finished p completion).pipeline
          completion2).result = none ∧
      (_handle_output_moderation_when_task_finished
          (_handle_output_moderation_when_task_finished p completion).pipeline
          completion2).calls = []) := by
  refine ⟨?_, ?_, ?_⟩
  · intro entity qm stream moderate hnone
    simp [initPipeline, _init_output_moderation, hnone]
  · intro p completion h
    simp [_handle_output_moderation_when_task_finished, h]
  · intro p h completion completion2 hh
    simp [_handle_output_moderation_when_task_finished, hh]

/-- Witness for C4: the disabled sample configuration yields no handler and
a no-op finish; the enabled sample pipeline moderates once and only once. -/
theorem moderation_gate_one_shot_witness :
    (initPipeline sampleEntityDisabled 0 true sampleModerate).output_moderation_handler
        = none ∧
    _handle_output_moderation_when_task_finished
        (initPipeline sampleEntityDisabled 0 true sampleModerate) "text"
      = { result := none,
          pipeline := initPipeline sampleEntityDisabled 0 true sampleModerate,
          calls := [] } ∧
    (_handle_output_moderation_when_task_finished samplePipelineEnabled "text").result
        = some (sampleHandler.moderate "text" false) ∧
    (_handle_output_moderation_when_task_finished
        (_handle_output_moderation_when_task_finished samplePipelineEnabled "text").pipeline
        "more").result = none :=
  ⟨moderation_gate_one_shot.1 sampleEntityDisabled 0 true sampleModerate rfl,
   moderation_gate_one_shot.2.1 (initPipeline sampleEntityDisabled 0 true sampleModerate)
     "text" rfl,
   (moderation_gate_one_shot.2.2 samplePipelineEnabled sampleHandler "text" "more" rfl).1,
   (moderation_gate_one_shot.2.2 samplePipelineEnabled sampleHandler "text" "more" rfl).2.2.2.1⟩

/-- C5: with a message reference whose record is present, after
classification the persisted record has status "error" and a non-empty
error description and the commit is issued; with no reference, no
persistence operation is issued and the database is unchanged. -/
theorem handle_error_persistence_contract :
    (∀ (event : QueueErrorEvent) (m : Message) (db : List Message),
      (queryFirst db m.id).isSome = true →
      ∃ r, queryFirst (_handle_error event (some m) db).db m.id = some r ∧
        r.status = "error" ∧
        (∃ d, r.error = some d ∧ 0 < d.length) ∧
        DbOp.commit ∈ (_handle_error event (some m) db).ops) ∧
    (∀ (event : QueueErrorEvent) (db : List Message),
      (_handle_error event none db).db = db ∧
      (_handle_error event none db).ops = []) := by
  constructor
  · intro event m db hfound
    obtain ⟨r, hr, hs, he, hops⟩ := handle_error_persists event m db hfound
    refine ⟨r, hr, hs, ⟨_, he, error_to_desc_length_pos _⟩, ?_⟩
    rw [hops]
    simp
  · intro event db
    exact ⟨rfl, rfl⟩

/-- Witness for C5 with a concrete event, both with and without a message
reference. -/
theorem handle_error_persistence_contract_witness :
    (queryFirst [sampleMessage] sampleMessage.id).isSome = true ∧
    (∃ r, queryFirst
        (_handle_error sampleValueEvent (some sampleMessage) [sampleMessage]).db
        sampleMessage.id = some r ∧
      r.status = "error" ∧ (∃ d, r.error = some d ∧ 0 < d.length) ∧
      DbOp.commit ∈ (_handle_error sampleValueEvent (some sampleMessage) [sampleMessage]).ops) ∧
    (_handle_error sampleValueEvent none []).db = [] ∧
    (_handle_error sampleValueEvent none []).ops = [] :=
  ⟨rfl,
   handle_error_persistence_contract.1 sampleValueEvent sampleMessage [sampleMessage] rfl,
   (handle_error_persistence_contract.2 sampleValueEvent []).1,
   (handle_error_persistence_contract.2 sampleValueEvent []).2⟩

/-- C6: for every `QueueErrorEvent` whose error is an authorization failure
(and any message reference whose record, if supplied, is present),
`_handle_error` returns the freshly built authorization failure whose
message is the fixed string, regardless of the original exception's
message. -/
theorem auth_error_fixed_message
    (event : QueueErrorEvent) (message : Option Message) (db : List Message)
    (hauth : isInstInvokeAuthorizationError event.error = true)
    (hok : ∀ m, message = some m → (queryFirst db m.id).isSome = true) :
    (_handle_error event message db).result
      = Except.ok (mkInvokeAuthorizationError incorrectApiKeyMessage) ∧
    strOf (mkInvokeAuthorizationError incorrectApiKeyMessage)
      = incorrectApiKeyMessage := by
  have hclass : classifyErr event.error
      = mkInvokeAuthorizationError incorrectApiKeyMessage := by
    simp [classifyErr, hauth]
  exact ⟨by rw [handleError_ok event message db hok, hclass], rfl⟩

/-- Witness for C6 at a concrete authorization failure whose original
message differs from the fixed one. -/
theorem auth_error_fixed_message_witness :
    isInstInvokeAuthorizationError sampleAuthEvent.error = true ∧
    (_handle_error sampleAuthEvent none []).result
      = Except.ok (mkInvokeAuthorizationError incorrectApiKeyMessage) ∧
    strOf (mkInvokeAuthorizationError incorrectApiKeyMessage)
      = incorrectApiKeyMessage :=
  ⟨rfl,
   (auth_error_fixed_message sampleAuthEvent none [] rfl (fun _ h => nomatch h)).1,
   (auth_error_fixed_message sampleAuthEvent none [] rfl (fun _ h => nomatch h)).2⟩

/-- C7: non-authorization `InvokeError` and `ValueError` failures pass
through `_handle_error` unchanged; every other non-authorization failure is
wrapped into a plain `Exception` carrying the original's description when
present (and not `None`), otherwise its string form. -/
theorem classify_passthrough_and_wrap
    (event : QueueErrorEvent) (message : Option Message) (db : List Message)
    (hok : ∀ m, message = some m → (queryFirst db m.id).isSome = true) :
    (isInstInvokeAuthorizationError event.error = false →
      (isInstInvokeError event.error = true ∨ isInstValueError event.error = true) →
      (_handle_error event message db).result = Except.ok event.error) ∧
    (isInstInvokeError event.error = false →
      isInstValueError event.error = false →
      ((∀ d, descriptionAttr event.error = some (some d) →
         (_handle_error event message db).result = Except.ok (mkException d)) ∧
       ((descriptionAttr event.error = none ∨ descriptionAttr event.error = some none) →
         (_handle_error event message db).result
           = Except.ok (mkException (strOf event.error))))) := by
  rw [handleError_ok event message db hok]
  constructor
  · intro hauth hpass
    have hor : (isInstInvokeError event.error || isInstValueError event.error) = true := by
      rcases hpass with h | h <;> simp [h]
    simp [classifyErr, hauth, hor]
  · intro hinv hval
    have hauth := auth_false_of_invoke_false event.error hinv
    constructor
    · intro d hd
      simp [classifyErr, hauth, hinv, hval, hd]
    · intro hd
      rcases hd with hd | hd <;> simp [classifyErr, hauth, hinv, hval, hd]

/-- Witness for C7: a `ValueError` passes through; a plain exception with a
description is wrapped carrying it; one without is wrapped carrying its
string form. -/
theorem classify_passthrough_and_wrap_witness :
    (_handle_error sampleValueEvent none []).result
        = Except.ok sampleValueEvent.error ∧
    (_handle_error { error := Exc.exception (some (some "described")) "strform" } none []).result
        = Except.ok (mkException "described") ∧
    (_handle_error { error := Exc.exception none "plain" } none []).result
        = Except.ok (mkException "plain") :=
  ⟨(classify_passthrough_and_wrap sampleValueEvent none []
      (fun _ h => nomatch h)).1 rfl (Or.inr rfl),
   ((classify_passthrough_and_wrap { error := Exc.exception (some (some "described")) "strform" }
      none [] (fun _ h => nomatch h)).2 rfl rfl).1 "described" rfl,
   ((classify_passthrough_and_wrap { error := Exc.exception none "plain" }
      none [] (fun _ h => nomatch h)).2 rfl rfl).2 (Or.inl rfl)⟩

/-- C8: for every failure that is not a quota-exhaustion error, has no
description field, and has an empty string representation, `_error_to_desc`
returns the fixed support message. -/
theorem error_to_desc_support_fallback (e : Exc)
    (hq : isInstQuotaExceededError e = false)
    (hd : descriptionAttr e = none)
    (hs : strOf e = "") :
    _error_to_desc e = internalServerErrorMessage := by
  simp [_error_to_desc, hq, hd, hs]

/-- Witness for C8 at a plain exception with empty string form. -/
theorem error_to_desc_support_fallback_witness :
    isInstQuotaExceededError (Exc.exception none "") = false ∧
    descriptionAttr (Exc.exception none "") = none ∧
    strOf (Exc.exception none "") = "" ∧
    _error_to_desc (Exc.exception none "") = internalServerErrorMessage :=
  ⟨rfl, rfl, rfl, error_to_desc_support_fallback (Exc.exception none "") rfl rfl rfl⟩

/-- C9: the task identifier is immutable once generation starts:
construction stores the entity unchanged, the only self-mutating operation
(discarding the moderation handler) preserves the generate entity, and both
stream responses carry exactly the pipeline's task identifier. -/
theorem task_id_immutable :
    (∀ (entity : AppGenerateEntity) (qm : Nat) (stream : Bool)
       (moderate : String → Bool → String),
      (initPipeline entity qm stream moderate).application_generate_entity = entity) ∧
    (∀ (p : BasedGenerateTaskPipeline) (completion : String),
      (_handle_output_moderation_when_task_finished p completion).pipeline.application_generate_entity
        = p.application_generate_entity) ∧
    (∀ (p : BasedGenerateTaskPipeline) (e : Exc),
      (_error_to_stream_response p e).task_id
        = p.application_generate_entity.task_id) ∧
    (∀ (p : BasedGenerateTaskPipeline),
      (_ping_stream_response p).task_id
        = p.application_generate_entity.task_id) := by
  refine ⟨fun _ _ _ _ => rfl, ?_, fun _ _ => rfl, fun _ => rfl⟩
  intro p completion
  cases hh : p.output_moderation_handler <;>
    simp [_handle_output_moderation_when_task_finished, hh]

/-- C10: `_error_to_desc` always returns a non-empty string: whenever the
derived description would be empty or absent, the fixed support message is
substituted. -/
theorem error_to_desc_nonempty (e : Exc) : 0 < (_error_to_desc e).length :=
  error_to_desc_length_pos e

end AIPipeline
